import Mathlib

/-!
Shallow embedding of the client-side authentication/onboarding logic of the
VRS repository (`src/components/auth/CenterSignupPage.tsx`,
`src/components/auth/LoginPage.tsx`), together with theorems checking the
specification's claims about it.

Strings model JS strings (BMP code points; the passwords, messages and field
names involved are all ASCII).  JS numbers that the code only ever produces
via `parseInt(...) || 0` are modelled as `Int`.
-/

namespace VRS

/-- `address` sub-record of `CenterFormData` (CenterSignupPage.tsx lines 20-25). -/
structure Address where
  street : String
  city : String
  state : String
  pincode : String
deriving DecidableEq

/-- `workingHours` sub-record of `operationalDetails` (lines 29-32). -/
structure WorkingHours where
  start : String
  «end» : String
deriving DecidableEq

/-- `operationalDetails` sub-record of `CenterFormData` (lines 27-34).
`capacity` is a JS number produced by `parseInt(e.target.value) || 0`,
modelled as `Int`. -/
structure OperationalDetails where
  capacity : Int
  workingHours : WorkingHours
  workingDays : List String
deriving DecidableEq

/-- A staged upload.  The component only ever reads `file.name` (line 602),
so a file handle is modelled by its name. -/
structure File where
  name : String
deriving DecidableEq

/-- The registration draft, interface `CenterFormData` (lines 13-37).

A JS object whose static type is `CenterFormData` can still carry own
properties outside the interface at runtime: the computed-member update
`{ ...prev, [field]: v }` in `handleArrayInputChange` (line 109) adds such a
property whenever `field` is not one of the declared keys (this is exactly
what happens for the dotted string `"operationalDetails.workingDays"`).
`extraProps` models those dynamically added own properties; the handler only
ever writes string arrays into them.  A freshly initialised draft has
`extraProps = []`. -/
structure CenterFormData where
  centerName : String
  contactPersonName : String
  email : String
  phoneNumber : String
  password : String
  confirmPassword : String
  address : Address
  region : String
  operationalDetails : OperationalDetails
  services : List String
  documents : List File
  extraProps : List (String × List String) := []
deriving DecidableEq

/-- The `useState` initialiser of the draft (lines 63-87). -/
def initialFormData : CenterFormData where
  centerName := ""
  contactPersonName := ""
  email := ""
  phoneNumber := ""
  password := ""
  confirmPassword := ""
  address := { street := "", city := "", state := "", pincode := "" }
  region := ""
  operationalDetails :=
    { capacity := 100
      workingHours := { start := "09:00", «end» := "18:00" }
      workingDays := ["Monday", "Tuesday", "Wednesday", "Thursday", "Friday"] }
  services := ["Storage", "Distribution"]
  documents := []
  extraProps := []

/-- Assignment to an own property of a JS object's dynamic part: overwrite the
existing entry for the key, or append a new one. -/
def setProp (props : List (String × List String)) (k : String) (v : List String) :
    List (String × List String) :=
  match props with
  | [] => [(k, v)]
  | (k₀, v₀) :: rest => if k₀ = k then (k, v) :: rest else (k₀, v₀) :: setProp rest k v

/-- `handleArrayInputChange(field, value, checked)` (lines 106-113):

`setFormData(prev => ({ ...prev, [field]: checked ? [...prev[field], value]
: prev[field].filter(item => item !== value) }))`.

The computed key `[field]` addresses a property literally named by the string
`field`.  Among the declared keys of `CenterFormData`, `services` is the only
string-array property this handler is invoked with (the other call site
passes the dotted string `"operationalDetails.workingDays"`, which is not a
declared key).  For any other `field` string the read `prev[field]` yields a
dynamically added own property, or `undefined` if the key was never assigned;
spreading `undefined` (and calling `.filter` on it) throws a `TypeError`, so
the updater aborts without producing a new state — modelled as `none`.
Declared keys holding non-string-array values (`centerName`, `documents`, …)
are never passed by the component and are outside this model. -/
def handleArrayInputChange (prev : CenterFormData) (field : String) (value : String)
    (checked : Bool) : Option CenterFormData :=
  if field = "services" then
    some { prev with
            services :=
              if checked then prev.services ++ [value]
              else prev.services.filter (fun item => item ≠ value) }
  else
    match prev.extraProps.lookup field with
    | some arr =>
        some { prev with
                extraProps :=
                  setProp prev.extraProps field
                    (if checked then arr ++ [value]
                     else arr.filter (fun item => item ≠ value)) }
    | none => none

/-- `handleDocumentUpload` (lines 115-121): appends the picked files to the
staged `documents` list of the draft. -/
def handleDocumentUpload (prev : CenterFormData) (files : List File) : CenterFormData :=
  { prev with documents := prev.documents ++ files }

/-- A JS regex line terminator: `.` in `/^(?=.*[a-z])(?=.*[A-Z])(?=.*\d)/`
matches any character except these. -/
def isLineTerminator (c : Char) : Bool :=
  c = '\n' || c = '\r' || c = '\u2028' || c = '\u2029'

/-- Semantics of one anchored lookahead `(?=.*[cls])`: it succeeds iff some
character of class `cls` occurs with only non-line-terminator characters
before it, i.e. iff the maximal line-terminator-free prefix contains a `cls`
character (the character classes involved contain no line terminators). -/
def lookaheadHas (p : String) (cls : Char → Bool) : Bool :=
  (p.data.takeWhile (fun c => !isLineTerminator c)).any cls

/-- `passwordRegex.test(password)` for
`/^(?=.*[a-z])(?=.*[A-Z])(?=.*\d)/` (line 139). -/
def passwordRegexTest (p : String) : Bool :=
  lookaheadHas p Char.isLower && lookaheadHas p Char.isUpper && lookaheadHas p Char.isDigit

/-- `validateForm` (lines 130-157): returns the first violation's message, or
`none` (the TS `null`) when the draft passes. -/
def validateForm (f : CenterFormData) : Option String :=
  if f.password ≠ f.confirmPassword then
    some "Passwords do not match"
  else if f.password.length < 6 then
    some "Password must be at least 6 characters long"
  else if !passwordRegexTest f.password then
    some "Password must contain at least one uppercase letter, one lowercase letter, and one number"
  else if f.operationalDetails.capacity < 1 then
    some "Capacity must be at least 1"
  else if f.operationalDetails.workingDays.length = 0 then
    some "Please select at least one working day"
  else if f.services.length = 0 then
    some "Please select at least one service"
  else
    none

/-- Spec §4.2: the six ordered validation rules of the Validation Engine, each
a passing condition paired with the message surfaced when it is the first
one to fail.  This definition follows the spec's wording, for comparison with
`validateForm`. -/
def centerRules (f : CenterFormData) : List (Bool × String) :=
  [ (f.password == f.confirmPassword, "Passwords do not match"),
    (decide (6 ≤ f.password.length), "Password must be at least 6 characters long"),
    (passwordRegexTest f.password,
      "Password must contain at least one uppercase letter, one lowercase letter, and one number"),
    (decide (1 ≤ f.operationalDetails.capacity), "Capacity must be at least 1"),
    (!f.operationalDetails.workingDays.isEmpty, "Please select at least one working day"),
    (!f.services.isEmpty, "Please select at least one service") ]

/-- Spec §4.2: "first failing rule wins and its message is surfaced"; success
(`none`) only when every rule passes. -/
def firstViolation : List (Bool × String) → Option String
  | [] => none
  | (ok, msg) :: rest => if ok then firstViolation rest else some msg

/-- JS `String.prototype.startsWith(search)`: the receiver's code-point
sequence begins with that of `search`. -/
def jsStartsWith (s search : String) : Bool :=
  search.data.isPrefixOf s.data

/-- JS `String.prototype.toUpperCase()` restricted to the ASCII role strings
it is applied to: per-character upper-casing. -/
def jsToUpperCase (s : String) : String :=
  ⟨s.data.map Char.toUpper⟩

/-- JS `String.prototype.toLowerCase()` restricted to the ASCII role strings
it is applied to: per-character lower-casing. -/
def jsToLowerCase (s : String) : String :=
  ⟨s.data.map Char.toLower⟩

/-- Phone formatting at the top of the submit handler (lines 172-174):
`formData.phoneNumber.startsWith("+977") ? formData.phoneNumber :
`+977...` with the phone number interpolated. -/
def formatPhone (phoneNumber : String) : String :=
  if jsStartsWith phoneNumber "+977" then phoneNumber else "+977" ++ phoneNumber

/-- The wire payload `apiData` posted to `/api/auth/register` (lines 177-188);
its fields are exactly the keys of that object literal. -/
structure ApiData where
  name : String
  email : String
  password : String
  phone : String
  role : String
  centerName : String
  address : Address
  region : String
  operationalDetails : OperationalDetails
  services : List String
deriving DecidableEq

/-- Construction of `apiData` from the draft (lines 177-188). -/
def mkApiData (formData : CenterFormData) : ApiData where
  name := formData.contactPersonName
  email := formData.email
  password := formData.password
  phone := formatPhone formData.phoneNumber
  role := "CENTER"
  centerName := formData.centerName
  address := formData.address
  region := formData.region
  operationalDetails := formData.operationalDetails
  services := formData.services

/-- One entry of the backend's structured error list
`error.response.data.errors` (lines 207-210). -/
structure FieldError where
  field : String
  message : String
deriving DecidableEq

/-- How the awaited `axiosInstance.post("/api/auth/register", ...)` resolves:
either with a response envelope `{success, message?}` (lines 197-202), or by
throwing, in which case `error.response?.data?.errors` and
`error.response?.data?.message` drive the catch block (lines 203-218; an
absent `errors` key is the empty list). -/
inductive RegisterOutcome where
  | resolved (success : Bool) (message : Option String)
  | rejected (errors : List FieldError) (message : Option String)
deriving DecidableEq

/-- JS `x || fallback` applied to an optional string: `undefined` and the
empty string are both falsy. -/
def jsOrElse (s : Option String) (fallback : String) : String :=
  match s with
  | some m => if m.isEmpty then fallback else m
  | none => fallback

/-- Observable outcome of one run of the submit handler: the `alert` text
shown, whether the register POST was issued and with which payload, the final
`isLoading` flag, the final draft, and whether `onSignupSuccess` was called. -/
structure SubmitResult where
  alertMessage : Option String
  networkCalled : Bool
  payload : Option ApiData
  isLoading : Bool
  formData : CenterFormData
  signupSucceeded : Bool
deriving DecidableEq

/-- `handleSubmit` (lines 159-219) as a function of the draft and of how the
transport resolves.  Every branch ends with `setIsLoading(false)`; the draft
itself is never written by the handler. -/
def handleSubmit (formData : CenterFormData) (outcome : RegisterOutcome) : SubmitResult :=
  match validateForm formData with
  | some validationError =>
      { alertMessage := some validationError, networkCalled := false, payload := none,
        isLoading := false, formData := formData, signupSucceeded := false }
  | none =>
      let apiData := mkApiData formData
      match outcome with
      | .resolved success message =>
          if success then
            { alertMessage := some "Application submitted successfully! Your application has been sent to the admin for verification.",
              networkCalled := true, payload := some apiData, isLoading := false,
              formData := formData, signupSucceeded := true }
          else
            { alertMessage := some (jsOrElse message "Failed to submit application. Please try again."),
              networkCalled := true, payload := some apiData, isLoading := false,
              formData := formData, signupSucceeded := false }
      | .rejected errors message =>
          if 0 < errors.length then
            { alertMessage :=
                some ("Validation errors:\n" ++
                  String.intercalate "\n" (errors.map (fun err => err.field ++ ": " ++ err.message))),
              networkCalled := true, payload := some apiData, isLoading := false,
              formData := formData, signupSucceeded := false }
          else
            { alertMessage := some (jsOrElse message "An error occurred while submitting your application. Please try again."),
              networkCalled := true, payload := some apiData, isLoading := false,
              formData := formData, signupSucceeded := false }

/-- A draft that passes every validation rule: the initial draft with contact
and credential fields filled in. -/
def validFormData : CenterFormData :=
  { initialFormData with
      centerName := "Kathmandu Center"
      contactPersonName := "Asha Rai"
      email := "center@example.com"
      phoneNumber := "9812345678"
      password := "Abc123"
      confirmPassword := "Abc123"
      address := { street := "Main Road", city := "Kathmandu",
                   state := "Bagmati Province", pincode := "446600" }
      region := "Bagmati Province" }

/-- `validFormData` with `operationalDetails.capacity` set to `0` (what
`parseInt("") || 0` stores when the capacity input is cleared). -/
def capacityZeroFormData : CenterFormData :=
  { validFormData with
      operationalDetails := { validFormData.operationalDetails with capacity := 0 } }

/-- One form instance of the signup view, seen from the submission lock's
point of view: the `isLoading` flag (line 62), the draft, and a counter of
register POSTs issued so far. -/
structure FormInstance where
  isLoading : Bool
  formData : CenterFormData
  networkCalls : Nat
deriving DecidableEq

/-- Modelled from the spec: the submit control is rendered by the external
`Button` component (`../ui/Button`), which is not part of the reviewed
source and receives `isLoading` (line 642).  Per spec §5, the controller not
being Idle acts as an at-most-one-submission lock: a submit attempt while a
submission is in flight (`isLoading = true`) is rejected/ignored as a no-op,
never queued.  A delivered attempt runs the synchronous prefix of
`handleSubmit` (lines 159-192): on validation failure `isLoading` is toggled
on and back off with no POST; on success the POST is issued and the instance
is left in flight. -/
def submitPressed (st : FormInstance) : FormInstance :=
  if st.isLoading then st
  else
    match validateForm st.formData with
    | some _ => st
    | none => { st with isLoading := true, networkCalls := st.networkCalls + 1 }

/-- The user object inside a login response envelope (`data.data.user`,
LoginPage.tsx lines 39-46).  The handler reads and writes only its `role`
property; every other property is carried through untouched, modelled by the
opaque `rest` component. -/
structure LUser where
  rest : String
  role : String
deriving DecidableEq

/-- The body posted to `/api/auth/login` (lines 33-37). -/
structure LoginPayload where
  email : String
  password : String
  role : String
deriving DecidableEq

/-- How the awaited `axiosInstance.post("/api/auth/login", ...)` resolves:
a well-formed response envelope `{status, data: {success, data: {user,
token}, message?}}` (§6 of the spec), or a thrown error handled by the catch
block (lines 52-54). -/
inductive LoginOutcome where
  | resp (status : Nat) (success : Bool) (user : LUser) (token : String)
      (message : Option String)
  | failed
deriving DecidableEq

/-- The component state of `LoginPage` (lines 14-18). -/
structure LoginState where
  email : String
  password : String
  selectedRole : String
  isLoading : Bool
  error : String
deriving DecidableEq

/-- Observable outcome of one run of `handleLogin`: whether the login POST was
issued and with which body, what was handed to `onLogin` (user and token), and
the final component state. -/
structure LoginResult where
  networkCalled : Bool
  payload : Option LoginPayload
  handoff : Option (LUser × String)
  state : LoginState
deriving DecidableEq

/-- `handleLogin` (lines 20-58) as a function of the component state and of
how the transport resolves.  The guard `if (!selectedRole)` fires exactly on
the empty string (the only falsy string) and returns before `setIsLoading` or
the POST.  Otherwise the POST body carries `selectedRole.toUpperCase()`; on a
`status === 200 && data.success` response the user's `role` is lower-cased
(guarded by its truthiness, but lower-casing the empty string is the
identity) before `onLogin(user, token)`; a non-success response surfaces
`data.message || generic`; a thrown error surfaces the generic login error;
the `finally` block clears `isLoading` on every path that passed the guard. -/
def handleLogin (st : LoginState) (outcome : LoginOutcome) : LoginResult :=
  if st.selectedRole = "" then
    { networkCalled := false, payload := none, handoff := none,
      state := { st with error := "Please select your role" } }
  else
    let payload : LoginPayload :=
      { email := st.email, password := st.password, role := jsToUpperCase st.selectedRole }
    match outcome with
    | .resp status success user token message =>
        if status == 200 && success then
          let user' := if user.role = "" then user else { user with role := jsToLowerCase user.role }
          { networkCalled := true, payload := some payload, handoff := some (user', token),
            state := { st with isLoading := false, error := "" } }
        else
          { networkCalled := true, payload := some payload, handoff := none,
            state := { st with
                         isLoading := false,
                         error := jsOrElse message "Login failed. Please check your credentials." } }
    | .failed =>
        { networkCalled := true, payload := some payload, handoff := none,
          state := { st with
                       isLoading := false,
                       error := "An error occurred during login. Please try again." } }

/-- A draft passing every rule except that `password`/`confirmPassword` are a
matching 5-character string. -/
def shortPwFormData : CenterFormData :=
  { validFormData with password := "Abc12", confirmPassword := "Abc12" }

/-- The draft produced by one successful `services` add of "Packaging" on the
initial draft. -/
def servicesAddedFormData : CenterFormData :=
  { initialFormData with services := initialFormData.services ++ ["Packaging"] }

/-- The double add of "Packaging" to `services`, starting from the initial
draft (where it is absent). -/
def doubleAddResult : Option CenterFormData :=
  (handleArrayInputChange initialFormData "services" "Packaging" true).bind
    (fun f => handleArrayInputChange f "services" "Packaging" true)

/-- The backend rejection carrying the single structured error
`{field: "email", message: "already registered"}`. -/
def emailTakenOutcome : RegisterOutcome :=
  .rejected [{ field := "email", message := "already registered" }] none

/-- A login state with no role selected. -/
def loginNoRoleState : LoginState :=
  { email := "a@b.c", password := "pw", selectedRole := "", isLoading := false, error := "" }

/-- A login state with the admin role selected. -/
def loginAdminState : LoginState :=
  { email := "a@b.c", password := "pw", selectedRole := "admin", isLoading := false, error := "" }

/-- C1: calling the array mutator with the dotted path
"operationalDetails.workingDays" does NOT update the nested `workingDays`
array: the computed key writes a literal top-level property, the read of
which is `undefined` on the initial draft (a `TypeError`, modelled `none`),
and no invocation of the handler ever changes `operationalDetails`. -/
theorem workingDays_dotted_path_broken :
    handleArrayInputChange initialFormData "operationalDetails.workingDays" "Saturday" true
      = none ∧
    ∀ (prev : CenterFormData) (field value : String) (checked : Bool) (next : CenterFormData),
      handleArrayInputChange prev field value checked = some next →
      next.operationalDetails = prev.operationalDetails := by
  refine ⟨rfl, ?_⟩
  intro prev field value checked next h
  unfold handleArrayInputChange at h
  split at h
  · injection h with h'
    subst h'
    rfl
  · split at h
    · injection h with h'
      subst h'
      rfl
    · exact Option.noConfusion h

/-- Witness for C1: a `services` add succeeds and indeed leaves
`operationalDetails` unchanged. -/
theorem workingDays_dotted_path_broken_witness :
    servicesAddedFormData.operationalDetails = initialFormData.operationalDetails :=
  workingDays_dotted_path_broken.2 initialFormData "services" "Packaging" true
    servicesAddedFormData rfl

/-- C2: `validateForm` is exactly the ordered first-failure evaluation of the
six rules of spec §4.2, and for any draft whose password is shorter than 6
characters and equal to its confirmation the length violation is returned
(never the complexity violation). -/
theorem validateForm_ordered_rules (f : CenterFormData) :
    validateForm f = firstViolation (centerRules f) ∧
    (f.password.length < 6 → f.password = f.confirmPassword →
      validateForm f = some "Password must be at least 6 characters long") := by
  constructor
  · obtain ⟨cn, cpn, em, ph, pwd, cpw, addr, reg, od, svc, docs, extra⟩ := f
    obtain ⟨cap, wh, wd⟩ := od
    by_cases h1 : pwd = cpw
    · subst h1
      by_cases h2 : pwd.length < 6
      · simp [validateForm, centerRules, firstViolation, h2, Nat.not_le.mpr h2]
      · have h2' : 6 ≤ pwd.length := Nat.le_of_not_lt h2
        cases h3 : passwordRegexTest pwd
        · simp [validateForm, centerRules, firstViolation, h2, h2', h3]
        · by_cases h4 : cap < 1
          · simp [validateForm, centerRules, firstViolation, h2, h2', h3, h4,
              Int.not_le.mpr h4]
          · have h4' : (1 : Int) ≤ cap := Int.not_lt.mp h4
            by_cases h5 : wd = []
            · simp [validateForm, centerRules, firstViolation, h2, h2', h3, h4, h4',
                h5, List.length_eq_zero, List.isEmpty_iff]
            · by_cases h6 : svc = []
              · simp [validateForm, centerRules, firstViolation, h2, h2', h3, h4, h4',
                  h5, h6, List.length_eq_zero, List.isEmpty_iff]
              · simp [validateForm, centerRules, firstViolation, h2, h2', h3, h4, h4',
                  h5, h6, List.length_eq_zero, List.isEmpty_iff]
    · simp [validateForm, centerRules, firstViolation, h1]
  · intro hlen heq
    have hlen' : f.confirmPassword.length < 6 := by rwa [heq] at hlen
    simp [validateForm, heq, hlen']

/-- Witness for C2: a matching 5-character password draws the length message. -/
theorem validateForm_ordered_rules_witness :
    validateForm shortPwFormData = some "Password must be at least 6 characters long" :=
  (validateForm_ordered_rules shortPwFormData).2 (by decide) rfl

/-- C3 counterexample: adding "Packaging" to `services` twice in a row from
the initial draft leaves TWO occurrences, not one — the add is a plain
append, not idempotent. -/
theorem repeat_add_duplicates_cex :
    doubleAddResult.map (fun f => f.services.count "Packaging") = some 2 ∧
    doubleAddResult.map (fun f => f.services.count "Packaging") ≠ some 1 := by
  constructor
  · rfl
  · decide

/-- C3 amended: two consecutive adds of `v` to the `services` array both
append, leaving two more occurrences of `v` than before (two occurrences
when `v` was absent). -/
theorem repeat_add_appends_twice (prev : CenterFormData) (v : String) :
    ((handleArrayInputChange prev "services" v true).bind
        (fun f => handleArrayInputChange f "services" v true)).map
      (fun f => f.services.count v) = some (prev.services.count v + 2) := by
  simp [handleArrayInputChange, List.count_append]

/-- C4 counterexample: for a fully valid draft rejected with the single
structured error `{field: "email", message: "already registered"}`, the
displayed message is `"Validation errors:\nemail: already registered"`, not
exactly `"email: already registered"`. -/
theorem structured_error_message_cex :
    (handleSubmit validFormData emailTakenOutcome).alertMessage =
      some "Validation errors:\nemail: already registered" ∧
    (handleSubmit validFormData emailTakenOutcome).alertMessage ≠
      some "email: already registered" := by
  constructor
  · rfl
  · decide

/-- C4 amended: on a rejection with a non-empty structured error list, the
displayed message is "Validation errors:" plus a newline followed by the
newline-joined "field: message" pairs; the controller returns to Idle
(`isLoading = false`) with the draft unchanged. -/
theorem structured_error_message (formData : CenterFormData) (errors : List FieldError)
    (message : Option String) (hv : validateForm formData = none) (hne : errors ≠ []) :
    handleSubmit formData (.rejected errors message) =
      { alertMessage := some ("Validation errors:\n" ++
          String.intercalate "\n" (errors.map (fun err => err.field ++ ": " ++ err.message))),
        networkCalled := true, payload := some (mkApiData formData), isLoading := false,
        formData := formData, signupSucceeded := false } := by
  have hlen : 0 < errors.length := List.length_pos.mpr hne
  simp [handleSubmit, hv, hlen]

/-- Witness for C4: the amended statement evaluated on the valid draft and
the single email error. -/
theorem structured_error_message_witness :
    handleSubmit validFormData emailTakenOutcome =
      { alertMessage := some "Validation errors:\nemail: already registered",
        networkCalled := true, payload := some (mkApiData validFormData), isLoading := false,
        formData := validFormData, signupSucceeded := false } :=
  structured_error_message validFormData
    [{ field := "email", message := "already registered" }] none rfl (by decide)

/-- C5: while a submission is in flight (`isLoading = true`) a further submit
attempt is an ignored no-op — same state, no further network call, nothing
queued; in particular two rapid submits of a valid idle draft issue exactly
one POST. -/
theorem submit_lock :
    (∀ st : FormInstance, st.isLoading = true → submitPressed st = st) ∧
    (∀ st : FormInstance, st.isLoading = false → validateForm st.formData = none →
        (submitPressed (submitPressed st)).networkCalls = st.networkCalls + 1 ∧
        submitPressed (submitPressed st) = submitPressed st) := by
  constructor
  · intro st h
    simp [submitPressed, h]
  · intro st h hv
    have h1 : submitPressed st =
        { st with isLoading := true, networkCalls := st.networkCalls + 1 } := by
      simp [submitPressed, h, hv]
    rw [h1]
    constructor <;> simp [submitPressed]

/-- Witness for C5: two rapid submits of the valid draft from Idle issue one
single network call. -/
theorem submit_lock_witness :
    (submitPressed (submitPressed
        { isLoading := false, formData := validFormData, networkCalls := 0 })).networkCalls
      = 0 + 1 :=
  (submit_lock.2 { isLoading := false, formData := validFormData, networkCalls := 0 }
    rfl (by decide)).1

/-- C6: the transmitted phone equals the draft's phone number when it already
starts with "+977" and "+977" prepended to it otherwise; concretely
"9812345678" is transmitted as "+9779812345678" and "+9779812345678"
unchanged; the register payload carries exactly this normalized value. -/
theorem phone_country_code :
    (∀ s : String, jsStartsWith s "+977" = true → formatPhone s = s) ∧
    (∀ s : String, jsStartsWith s "+977" = false → formatPhone s = "+977" ++ s) ∧
    formatPhone "9812345678" = "+9779812345678" ∧
    formatPhone "+9779812345678" = "+9779812345678" ∧
    (∀ formData : CenterFormData,
      (mkApiData formData).phone = formatPhone formData.phoneNumber) := by
  refine ⟨?_, ?_, by decide, by decide, fun _ => rfl⟩
  · intro s h
    simp [formatPhone, h]
  · intro s h
    simp [formatPhone, h]

/-- Witness for C6: both hypothesised branches evaluated on the concrete
inputs of the claim. -/
theorem phone_country_code_witness :
    formatPhone "9812345678" = "+977" ++ "9812345678" ∧
    formatPhone "+9779812345678" = "+9779812345678" :=
  ⟨phone_country_code.2.1 "9812345678" (by decide), phone_country_code.2.2.2.1⟩

/-- C7: when validation fails, the submit handler surfaces exactly the single
violation message, issues no network call, leaves the draft unchanged and
returns the controller to Idle; the capacity-0 draft draws
"Capacity must be at least 1". -/
theorem validation_failure_local :
    (∀ (formData : CenterFormData) (outcome : RegisterOutcome) (m : String),
        validateForm formData = some m →
        handleSubmit formData outcome =
          { alertMessage := some m, networkCalled := false, payload := none,
            isLoading := false, formData := formData, signupSucceeded := false }) ∧
    validateForm capacityZeroFormData = some "Capacity must be at least 1" := by
  constructor
  · intro formData outcome m hv
    simp [handleSubmit, hv]
  · rfl

/-- Witness for C7: submitting the capacity-0 draft yields the local
violation and no network call, whatever the transport would have answered. -/
theorem validation_failure_local_witness :
    handleSubmit capacityZeroFormData (.resolved true none) =
      { alertMessage := some "Capacity must be at least 1", networkCalled := false,
        payload := none, isLoading := false, formData := capacityZeroFormData,
        signupSucceeded := false } :=
  validation_failure_local.1 capacityZeroFormData (.resolved true none)
    "Capacity must be at least 1" validation_failure_local.2

/-- C8: the register payload consists exactly of name (the contact person
name), email, password, phone, role = "CENTER", centerName, address, region,
operationalDetails and services (these are all the fields of `ApiData`); it
is independent of the draft's `documents`, `confirmPassword` and dynamic
properties, so staged files and the confirmation are never transmitted. -/
theorem payload_excludes_documents :
    (∀ (formData : CenterFormData) (docs : List File) (cp : String)
        (extra : List (String × List String)),
        mkApiData { formData with
                      documents := docs, confirmPassword := cp, extraProps := extra } =
          mkApiData formData) ∧
    (∀ formData : CenterFormData,
        mkApiData formData =
          { name := formData.contactPersonName, email := formData.email,
            password := formData.password, phone := formatPhone formData.phoneNumber,
            role := "CENTER", centerName := formData.centerName,
            address := formData.address, region := formData.region,
            operationalDetails := formData.operationalDetails,
            services := formData.services }) :=
  ⟨fun _ _ _ _ => rfl, fun _ => rfl⟩

/-- C9: a login submitted with no role selected surfaces the local error
"Please select your role", issues no network call and leaves the email and
password fields unchanged. -/
theorem login_requires_role (st : LoginState) (outcome : LoginOutcome)
    (h : st.selectedRole = "") :
    handleLogin st outcome =
      { networkCalled := false, payload := none, handoff := none,
        state := { st with error := "Please select your role" } } ∧
    (handleLogin st outcome).state.email = st.email ∧
    (handleLogin st outcome).state.password = st.password := by
  refine ⟨?_, ?_, ?_⟩ <;> simp [handleLogin, h]

/-- Witness for C9: a concrete no-role login attempt. -/
theorem login_requires_role_witness :
    handleLogin loginNoRoleState .failed =
      { networkCalled := false, payload := none, handoff := none,
        state := { loginNoRoleState with error := "Please select your role" } } :=
  (login_requires_role loginNoRoleState .failed rfl).1

/-- C10: with a role selected, the login payload carries the role
upper-cased; on a successful 200 response the returned user is handed off
with its role lower-cased (so "ADMIN" becomes "admin"). -/
theorem login_role_case_normalized (st : LoginState) (h : st.selectedRole ≠ "") :
    (∀ outcome : LoginOutcome, (handleLogin st outcome).payload =
        some { email := st.email, password := st.password,
               role := jsToUpperCase st.selectedRole }) ∧
    (∀ (user : LUser) (token : String) (message : Option String),
        (handleLogin st (.resp 200 true user token message)).handoff =
          some ({ user with role := jsToLowerCase user.role }, token)) := by
  constructor
  · intro outcome
    cases outcome with
    | resp status success user token message =>
        simp only [handleLogin, if_neg h]
        split <;> rfl
    | failed =>
        simp [handleLogin, h]
  · intro user token message
    by_cases hr : user.role = ""
    · obtain ⟨rest, role⟩ := user
      simp only at hr
      subst hr
      simp [handleLogin, h, jsToLowerCase]
    · simp [handleLogin, h, hr]

/-- Witness for C10: admin login against a response carrying role "ADMIN". -/
theorem login_role_case_normalized_witness :
    (handleLogin loginAdminState
        (.resp 200 true { rest := "u1", role := "ADMIN" } "tok" none)).payload =
      some { email := "a@b.c", password := "pw", role := "ADMIN" } ∧
    (handleLogin loginAdminState
        (.resp 200 true { rest := "u1", role := "ADMIN" } "tok" none)).handoff =
      some ({ rest := "u1", role := "admin" }, "tok") :=
  ⟨(login_role_case_normalized loginAdminState (by decide)).1 _,
   (login_role_case_normalized loginAdminState (by decide)).2 _ _ _⟩

end VRS
